import Mathlib

/-!
Shallow embedding of the statistical computation layer of the HarkerBBALL
repository: the game metrics engine of src/analyze_game.py (possession
estimation, efficiency metrics, turnover / rebounding / shot-selection
analysis) and the shot zone engine of src/process_shots.py (zone assignment
and zone aggregation).

Conventions of the embedding:
* Python numbers (floats and ints read from the CSV tables) are modelled as
  rationals; float rounding noise is not modelled.
* A pandas value that may be NaN is modelled as an Option, with none for NaN.
* Python strings that the code inspects are modelled as Lean Strings; the
  string operations used by the code (str.split, int(...), substring search)
  are re-implemented over character lists so that they evaluate inside the
  kernel.
* Dictionaries returned by the analysis methods are modelled as structures
  holding the same fields.
-/

namespace HarkerBBALL

/-! ## Python numeric primitives -/

/-- Model of the Python builtin int(x) applied to a number: truncation toward
zero. -/
def pyInt (q : ℚ) : ℤ :=
  if 0 ≤ q then ⌊q⌋ else ⌈q⌉

/-- Rounding of a rational to the nearest integer with ties going to the even
integer, the rule used by the Python builtin round. -/
def roundHalfEven (q : ℚ) : ℤ :=
  if q - ⌊q⌋ < 1 / 2 then ⌊q⌋
  else if 1 / 2 < q - ⌊q⌋ then ⌊q⌋ + 1
  else if ⌊q⌋ % 2 = 0 then ⌊q⌋ else ⌊q⌋ + 1

/-- Model of the Python builtin round(x, n): round half to even at n decimal
digits. -/
def pyRound (q : ℚ) (n : ℕ) : ℚ :=
  (roundHalfEven (q * 10 ^ n) : ℚ) / 10 ^ n

/-! ## Python string primitives, over character lists -/

/-- Model of Python str.split with a one-character separator, on the
character list of the string. Mirrors the behaviour of split: n separators
produce n + 1 fields, empty fields included. -/
def splitOnChar (c : Char) : List Char → List (List Char)
  | [] => [[]]
  | a :: rest =>
    let r := splitOnChar c rest
    if a = c then [] :: r
    else
      match r with
      | [] => [[a]]
      | g :: gs => (a :: g) :: gs

/-- Digit-string parser: some n when every character is a decimal digit and
the list is nonempty, none otherwise. -/
def parseDigits : List Char → Option ℕ
  | [] => none
  | l => l.foldl (fun acc c => match acc with
      | none => none
      | some n => if c.isDigit then some (n * 10 + (c.toNat - 48)) else none)
      (some 0)

/-- Model of the Python builtin int(s) on a string: an optional sign followed
by decimal digits; none models the ValueError raised on any other input.
Surrounding whitespace and underscore separators, which the Python builtin
also accepts, are not modelled; no minutes string in this system carries
them. -/
def pyParseInt (l : List Char) : Option ℤ :=
  match l with
  | '-' :: rest => (parseDigits rest).map (fun n => -(n : ℤ))
  | '+' :: rest => (parseDigits rest).map (fun n => (n : ℤ))
  | _ => (parseDigits l).map (fun n => (n : ℤ))

/-- Decides whether pat occurs at the head of s. -/
def headMatches : List Char → List Char → Bool
  | [], _ => true
  | _ :: _, [] => false
  | p :: ps, c :: cs => p = c && headMatches ps cs

/-- Decides whether pat occurs as a contiguous run anywhere in s; model of
the substring test performed by pandas Series.str.contains with a literal
pattern. -/
def hasSubChars (pat : List Char) : List Char → Bool
  | [] => pat.isEmpty
  | c :: cs => headMatches pat (c :: cs) || hasSubChars pat cs

/-! ## Data model: team totals, player rows, game data -/

/-- One row of the team box score table, the columns read by GameAnalyzer.
Each field carries the value of the CSV column named in its comment.
Columns that the code guards with pd.notna are Options; none models NaN. -/
structure TeamStats where
  /-- Column Points. -/
  points : ℚ
  /-- Column FG Attempts. -/
  fgAttempts : ℚ
  /-- Column Offensive Rebounds. -/
  offensiveRebounds : ℚ
  /-- Column Defensive Rebounds. -/
  defensiveRebounds : ℚ
  /-- Column Rebounds. -/
  rebounds : ℚ
  /-- Column Turnovers. -/
  turnovers : ℚ
  /-- Column FT Att. -/
  ftAtt : ℚ
  /-- Column AST-TO Ratio. -/
  astToRatio : ℚ
  /-- Column Turnover Percent. -/
  turnoverPct : ℚ
  /-- Column Points Per Possession, a precomputed field supplied by the
  source data. -/
  pointsPerPossession : ℚ
  /-- Column Effective Field Goal Percent; none models NaN. -/
  effectiveFieldGoalPct : Option ℚ
  /-- Column True Shooting Percent; none models NaN. -/
  trueShootingPct : Option ℚ
  /-- Column 2FG Made. -/
  twoFGMade : ℚ
  /-- Column 2FG Attempts. -/
  twoFGAttempts : ℚ
  /-- Column 2FG Percent. -/
  twoFGPct : ℚ
  /-- Column 3FG Made. -/
  threeFGMade : ℚ
  /-- Column 3FG Attempts. -/
  threeFGAttempts : ℚ
  /-- Column 3FG Att, a column distinct from 3FG Attempts in the source
  table, read by optimize_shot_selection. -/
  threeFGAtt : ℚ
  /-- Column 3FG Percent. -/
  threeFGPct : ℚ
  /-- Column Offensive Rebounding Percent. -/
  offensiveReboundingPct : ℚ
  /-- Column Defensive Rebounding Percent. -/
  defensiveReboundingPct : ℚ

/-- One row of the player statistics table, the columns read by
GameAnalyzer. Options model values that may be NaN. -/
structure PlayerRow where
  /-- Column Athlete. -/
  athlete : String
  /-- Column number sign. -/
  number : ℤ
  /-- Column Basic:TO. -/
  basicTO : Option ℚ
  /-- Column Basic:MP, the minutes-played clock string; none models NaN. -/
  basicMP : Option String
  /-- Column Basic:TRB. -/
  basicTRB : Option ℚ
  /-- Column Basic:ORB. -/
  basicORB : Option ℚ
  /-- Column Basic:DRB. -/
  basicDRB : Option ℚ
  /-- Column Basic:FGA. -/
  basicFGA : Option ℚ
  /-- Column Basic:FGM. -/
  basicFGM : Option ℚ
  /-- Column Basic:FG Percent; none also models the sentinel and non-numeric
  values that the safe_float helper of the source maps to its default. -/
  basicFGPct : Option ℚ
  /-- Column Shooting:eFG Percent, same convention as basicFGPct. -/
  shootingEfg : Option ℚ
  /-- Column Shooting:TS Percent, same convention as basicFGPct. -/
  shootingTs : Option ℚ
  /-- Column Advanced:AST/TO. -/
  advancedAstTo : Option ℚ
  /-- Column Advanced:USG Percent. -/
  advancedUsg : Option ℚ
  /-- Column Advanced:ORB Percent. -/
  advancedOrbPct : Option ℚ
  /-- Column Advanced:DRB Percent. -/
  advancedDrbPct : Option ℚ

/-- The data a GameAnalyzer instance holds after loading: the team box score
row of each side and the player rows of our team. -/
structure GameData where
  ourStats : TeamStats
  oppStats : TeamStats
  ourPlayers : List PlayerRow

/-! ## Possession estimation, GameAnalyzer._calculate_possessions -/

/-- Possessions = FGA - ORB + TO + 0.44 * FTA, as computed by
GameAnalyzer._calculate_possessions. -/
def calculate_possessions (ts : TeamStats) : ℚ :=
  ts.fgAttempts - ts.offensiveRebounds + ts.turnovers + (44 / 100) * ts.ftAtt

/-- The possessions of our team, computed once at load time. -/
def our_possessions (g : GameData) : ℚ :=
  calculate_possessions g.ourStats

/-- The possessions of the opponent, computed once at load time. -/
def opponent_possessions (g : GameData) : ℚ :=
  calculate_possessions g.oppStats

/-! ## Efficiency metrics, GameAnalyzer.calculate_efficiency_metrics -/

/-- The our_team entry of the mapping returned by
calculate_efficiency_metrics. -/
structure TeamEffOur where
  points : ℚ
  possessions : ℚ
  ppp : ℚ
  pps : ℚ
  efg : ℚ
  ts : ℚ
  twoPtFgm : ℚ
  twoPtFga : ℚ
  twoPtPct : ℚ
  twoPtPps : ℚ
  threePtFgm : ℚ
  threePtFga : ℚ
  threePtPct : ℚ
  threePtPps : ℚ

/-- The opponent entry of the mapping returned by
calculate_efficiency_metrics. -/
structure TeamEffOpp where
  points : ℚ
  possessions : ℚ
  ppp : ℚ
  pps : ℚ
  efg : ℚ
  ts : ℚ

/-- The mapping returned by calculate_efficiency_metrics. -/
structure EffMetrics where
  ourTeam : TeamEffOur
  opponent : TeamEffOpp

/-- GameAnalyzer.calculate_efficiency_metrics: points per possession and
points per shot guarded against zero denominators, percentage fields
rescaled, and the 2-point / 3-point split with expected values. -/
def calculate_efficiency_metrics (g : GameData) : EffMetrics :=
  let our := g.ourStats
  let opp := g.oppStats
  let our_ppp := if 0 < our_possessions g then our.points / our_possessions g else 0
  let opp_ppp := if 0 < opponent_possessions g then opp.points / opponent_possessions g else 0
  let our_pps := if 0 < our.fgAttempts then our.points / our.fgAttempts else 0
  let opp_pps := if 0 < opp.fgAttempts then opp.points / opp.fgAttempts else 0
  let our_efg := match our.effectiveFieldGoalPct with
    | some v => v / 100
    | none => 0
  let opp_efg := match opp.effectiveFieldGoalPct with
    | some v => v / 100
    | none => 0
  let our_ts := match our.trueShootingPct with
    | some v => v / 100
    | none => 0
  let opp_ts := match opp.trueShootingPct with
    | some v => v / 100
    | none => 0
  let our_2pt_pct := if 0 < our.twoFGAttempts then our.twoFGMade / our.twoFGAttempts * 100 else 0
  let our_3pt_pct := if 0 < our.threeFGAttempts then our.threeFGMade / our.threeFGAttempts * 100 else 0
  let our_2pt_pps := our_2pt_pct / 100 * 2
  let our_3pt_pps := our_3pt_pct / 100 * 3
  { ourTeam :=
      { points := our.points
        possessions := pyRound (our_possessions g) 2
        ppp := pyRound our_ppp 3
        pps := pyRound our_pps 3
        efg := pyRound (our_efg * 100) 2
        ts := pyRound (our_ts * 100) 2
        twoPtFgm := our.twoFGMade
        twoPtFga := our.twoFGAttempts
        twoPtPct := pyRound our_2pt_pct 2
        twoPtPps := pyRound our_2pt_pps 3
        threePtFgm := our.threeFGMade
        threePtFga := our.threeFGAttempts
        threePtPct := pyRound our_3pt_pct 2
        threePtPps := pyRound our_3pt_pps 3 }
    opponent :=
      { points := opp.points
        possessions := pyRound (opponent_possessions g) 2
        ppp := pyRound opp_ppp 3
        pps := pyRound opp_pps 3
        efg := pyRound (opp_efg * 100) 2
        ts := pyRound (opp_ts * 100) 2 } }

/-! ## Minutes parsing, GameAnalyzer._parse_minutes -/

/-- GameAnalyzer._parse_minutes: a clock string MM:SS parses to decimal
minutes; NaN, the em-dash sentinel, a string that does not split into
exactly two fields, and fields the int builtin rejects, all parse to 0. -/
def parse_minutes (time_str : Option String) : ℚ :=
  match time_str with
  | none => 0
  | some s =>
    if s = "—" then 0
    else
      match splitOnChar ':' s.toList with
      | [a, b] =>
        match pyParseInt a, pyParseInt b with
        | some m, some sec => (m : ℚ) + (sec : ℚ) / 60
        | _, _ => 0
      | _ => 0

/-- Per-36-minute rate as written at every call site of the source:
value / minutes * 36 when minutes is positive, 0 otherwise. -/
def per36 (v minutes : ℚ) : ℚ :=
  if 0 < minutes then v / minutes * 36 else 0

/-- Model of the safe_float helper of optimize_shot_selection: a present
numeric value passes through, every NaN, sentinel or non-numeric value
becomes the default 0. -/
def safe_float (v : Option ℚ) : ℚ :=
  v.getD 0

/-! ## Stable descending sort, the model of Python list.sort with a key and
reverse=True -/

/-- Model of Python list.sort(key=key, reverse=True): the stable descending
sort by the key. Insertion sort with this relation places an element after
every earlier element whose key is strictly greater and before the first
element whose key is less than or equal, which is exactly the stable
descending order; CPython timsort computes the same list. -/
def pySortDesc {α : Type} (key : α → ℚ) (l : List α) : List α :=
  l.insertionSort (fun a b => key b ≤ key a)

/-! ## Turnover analysis, GameAnalyzer.analyze_turnovers -/

/-- One entry of the per-player turnover list built by analyze_turnovers. -/
structure TOEntry where
  player : String
  number : ℤ
  turnovers : ℚ
  toPer36 : ℚ
  astToRatio : ℚ
  usage : ℚ
  minutes : ℚ

/-- The filter applied to the player rows by analyze_turnovers:
pd.notna(Basic:TO) and Basic:TO strictly positive. -/
def qualifiesTO (p : PlayerRow) : Bool :=
  match p.basicTO with
  | some t => decide (0 < t)
  | none => false

/-- The entry analyze_turnovers appends for a qualifying player row. The
getD 0 reads are only reached when the guarded column is present, so the
default is never the stored value for a row that passes qualifiesTO. -/
def mkTOEntry (p : PlayerRow) : TOEntry :=
  let minutes := parse_minutes p.basicMP
  let tov := p.basicTO.getD 0
  { player := p.athlete
    number := p.number
    turnovers := tov
    toPer36 := pyRound (per36 tov minutes) 2
    astToRatio := pyRound (p.advancedAstTo.getD 0) 2
    usage := pyRound (p.advancedUsg.getD 0) 2
    minutes := minutes }

/-- The player_turnovers list of analyze_turnovers after its sort call:
qualifying rows in input order, mapped to entries, then stably sorted by
turnover count descending. -/
def ranked_turnover_players (g : GameData) : List TOEntry :=
  pySortDesc (fun e => e.turnovers) ((g.ourPlayers.filter qualifiesTO).map mkTOEntry)

/-- The mapping returned by analyze_turnovers. -/
structure TOAnalysis where
  ourTurnovers : ℤ
  opponentTurnovers : ℤ
  ourToRate : ℚ
  oppToRate : ℚ
  ourAstToRatio : ℚ
  ourTurnoverPct : ℚ
  potentialPointsLost : ℚ
  topTurnoverPlayers : List TOEntry
  recommendations : List String

/-- GameAnalyzer.analyze_turnovers. The potential points lost are the team
turnovers times the Points Per Possession column of the team box score
row. -/
def analyze_turnovers (g : GameData) : TOAnalysis :=
  let our_to := g.ourStats.turnovers
  let opp_to := g.oppStats.turnovers
  let our_ast_to_ratio := g.ourStats.astToRatio
  let our_turnover_pct := g.ourStats.turnoverPct
  let our_to_rate := if 0 < our_possessions g then our_to / our_possessions g * 100 else 0
  let opp_to_rate := if 0 < opponent_possessions g then opp_to / opponent_possessions g * 100 else 0
  let player_turnovers := ranked_turnover_players g
  let our_ppp := g.ourStats.pointsPerPossession
  let potential_points_lost := our_to * our_ppp
  let recommendations :=
    (if 20 < our_to_rate then
       ["CRITICAL: Turnover rate is very high (>20%). Focus on ball security."]
     else if 15 < our_to_rate then
       ["WARNING: Turnover rate is elevated (>15%). Improve decision-making."]
     else []) ++
    (if our_ast_to_ratio < 1 then
       ["Low assist-to-turnover ratio. Focus on better passing and court vision."]
     else []) ++
    (match player_turnovers with
     | top :: _ =>
       if 5 < top.toPer36 then
         ["High turnover rate from " ++ top.player ++ " (#" ++ toString top.number ++
          "). Provide extra support on ball handling."]
       else []
     | [] => [])
  { ourTurnovers := pyInt our_to
    opponentTurnovers := pyInt opp_to
    ourToRate := pyRound our_to_rate 2
    oppToRate := pyRound opp_to_rate 2
    ourAstToRatio := pyRound our_ast_to_ratio 2
    ourTurnoverPct := pyRound our_turnover_pct 2
    potentialPointsLost := pyRound potential_points_lost 2
    topTurnoverPlayers := player_turnovers.take 5
    recommendations := recommendations }

/-! ## Rebounding analysis, GameAnalyzer.analyze_rebounding -/

/-- One entry of the per-player rebounding list. The orb and drb columns are
copied unguarded by the source, so they stay Options here. -/
structure RebEntry where
  player : String
  number : ℤ
  totalReb : ℚ
  orb : Option ℚ
  drb : Option ℚ
  rebPer36 : ℚ
  orbPct : ℚ
  drbPct : ℚ
  minutes : ℚ

/-- The filter applied to the player rows by analyze_rebounding:
pd.notna(Basic:TRB) and Basic:TRB strictly positive. -/
def qualifiesReb (p : PlayerRow) : Bool :=
  match p.basicTRB with
  | some t => decide (0 < t)
  | none => false

/-- The entry analyze_rebounding appends for a qualifying player row. -/
def mkRebEntry (p : PlayerRow) : RebEntry :=
  let minutes := parse_minutes p.basicMP
  let trb := p.basicTRB.getD 0
  { player := p.athlete
    number := p.number
    totalReb := trb
    orb := p.basicORB
    drb := p.basicDRB
    rebPer36 := pyRound (per36 trb minutes) 2
    orbPct := pyRound (p.advancedOrbPct.getD 0) 2
    drbPct := pyRound (p.advancedDrbPct.getD 0) 2
    minutes := minutes }

/-- The player_rebounds list of analyze_rebounding after its sort call. -/
def ranked_rebounders (g : GameData) : List RebEntry :=
  pySortDesc (fun e => e.totalReb) ((g.ourPlayers.filter qualifiesReb).map mkRebEntry)

/-- The mapping returned by analyze_rebounding. -/
structure RebAnalysis where
  ourTotalRebounds : ℤ
  ourOffensiveRebounds : ℤ
  ourDefensiveRebounds : ℤ
  ourOrbPct : ℚ
  ourDrbPct : ℚ
  oppTotalRebounds : ℤ
  oppOffensiveRebounds : ℤ
  oppDefensiveRebounds : ℤ
  oppOrbPct : ℚ
  oppDrbPct : ℚ
  reboundMargin : ℤ
  orbMargin : ℤ
  ourSecondChanceOpps : ℤ
  oppSecondChanceOpps : ℤ
  topRebounders : List RebEntry
  recommendations : List String

/-- GameAnalyzer.analyze_rebounding. -/
def analyze_rebounding (g : GameData) : RebAnalysis :=
  let our := g.ourStats
  let opp := g.oppStats
  let rebound_margin := our.rebounds - opp.rebounds
  let orb_margin := our.offensiveRebounds - opp.offensiveRebounds
  let recommendations :=
    (if our.offensiveReboundingPct < 25 then
       ["Offensive rebounding below average (<25%). Focus on boxing out and crashing the boards."]
     else []) ++
    (if 35 < opp.offensiveReboundingPct then
       ["ALERT: Opponent offensive rebounding is strong. Defensive box-outs critical."]
     else []) ++
    (if rebound_margin < -5 then
       ["Losing the rebounding battle significantly. Emphasize rebounding fundamentals."]
     else []) ++
    (if orb_margin < -3 then
       ["Giving up too many offensive rebounds. Improve defensive positioning."]
     else [])
  { ourTotalRebounds := pyInt our.rebounds
    ourOffensiveRebounds := pyInt our.offensiveRebounds
    ourDefensiveRebounds := pyInt our.defensiveRebounds
    ourOrbPct := pyRound our.offensiveReboundingPct 2
    ourDrbPct := pyRound our.defensiveReboundingPct 2
    oppTotalRebounds := pyInt opp.rebounds
    oppOffensiveRebounds := pyInt opp.offensiveRebounds
    oppDefensiveRebounds := pyInt opp.defensiveRebounds
    oppOrbPct := pyRound opp.offensiveReboundingPct 2
    oppDrbPct := pyRound opp.defensiveReboundingPct 2
    reboundMargin := pyInt rebound_margin
    orbMargin := pyInt orb_margin
    ourSecondChanceOpps := pyInt our.offensiveRebounds
    oppSecondChanceOpps := pyInt opp.offensiveRebounds
    topRebounders := (ranked_rebounders g).take 5
    recommendations := recommendations }

/-! ## Shot selection, GameAnalyzer.optimize_shot_selection -/

/-- One entry of the per-player shooting list. -/
structure ShotEntry where
  player : String
  number : ℤ
  fga : ℤ
  fgm : ℤ
  fgPct : ℚ
  efg : ℚ
  ts : ℚ
  usage : ℚ

/-- The filter applied to the player rows by optimize_shot_selection:
pd.notna(Basic:FGA) and Basic:FGA strictly positive. -/
def qualifiesShot (p : PlayerRow) : Bool :=
  match p.basicFGA with
  | some t => decide (0 < t)
  | none => false

/-- The entry optimize_shot_selection appends for a qualifying player
row. -/
def mkShotEntry (p : PlayerRow) : ShotEntry :=
  let fg_pct := safe_float p.basicFGPct
  { player := p.athlete
    number := p.number
    fga := match p.basicFGA with
      | some v => pyInt v
      | none => 0
    fgm := match p.basicFGM with
      | some v => pyInt v
      | none => 0
    fgPct := if 0 < fg_pct then pyRound (fg_pct * 100) 2 else 0
    efg := pyRound (safe_float p.shootingEfg) 2
    ts := pyRound (safe_float p.shootingTs) 2
    usage := pyRound (safe_float p.advancedUsg) 2 }

/-- The player_shots list of optimize_shot_selection after its sort call. -/
def ranked_shooters (g : GameData) : List ShotEntry :=
  pySortDesc (fun e => (e.fga : ℚ)) ((g.ourPlayers.filter qualifiesShot).map mkShotEntry)

/-- The mapping returned by optimize_shot_selection. -/
structure ShotSelAnalysis where
  twoPtExpectedValue : ℚ
  threePtExpectedValue : ℚ
  current2ptRate : ℚ
  current3ptRate : ℚ
  optimalMixRecommendation : String
  topShooters : List ShotEntry
  recommendations : List String

/-- GameAnalyzer.optimize_shot_selection. -/
def optimize_shot_selection (g : GameData) : ShotSelAnalysis :=
  let our := g.ourStats
  let our_2pt_pct := our.twoFGPct / 100
  let our_3pt_pct := our.threeFGPct / 100
  let our_2pt_expected := our_2pt_pct * 2
  let our_3pt_expected := our_3pt_pct * 3
  let total_fga := our.fgAttempts
  let our_2pt_rate := if 0 < total_fga then our.twoFGAttempts / total_fga else 0
  let our_3pt_rate := if 0 < total_fga then our.threeFGAtt / total_fga else 0
  let optimal_mix :=
    if our_2pt_expected < our_3pt_expected then "Increase 3-point attempts"
    else "Focus on high-percentage 2-point shots"
  let recommendations :=
    (if our_3pt_pct < 30 / 100 ∧ 50 / 100 < our_3pt_rate then
       ["3-point shooting is inefficient (<30%) but high volume (>50%). Reduce 3PT attempts or improve shooters."]
     else []) ++
    (if our_2pt_pct < 40 / 100 then
       ["2-point shooting below 40%. Focus on shot selection and quality looks."]
     else [])
  { twoPtExpectedValue := pyRound our_2pt_expected 3
    threePtExpectedValue := pyRound our_3pt_expected 3
    current2ptRate := pyRound (our_2pt_rate * 100) 2
    current3ptRate := pyRound (our_3pt_rate * 100) 2
    optimalMixRecommendation := optimal_mix
    topShooters := (ranked_shooters g).take 5
    recommendations := recommendations }

/-! ## Shot zone engine, src/process_shots.py -/

/-- One row of the shot event table; the columns read by
calculate_zone_stats. Options model NaN entries. -/
structure Shot where
  x : ℚ
  y : ℚ
  shotType : Option String
  result : Option String

/-- The substring test of the source, Series.str.contains with the literal
pattern 3PT and na=False: a NaN shot type counts as not containing it. -/
def contains3PT (t : Option String) : Bool :=
  match t with
  | none => false
  | some s => hasSubChars ("3PT".toList) s.toList

/-- Whether the Result column equals the string Made; a NaN result compares
unequal. -/
def isMade (s : Shot) : Bool :=
  match s.result with
  | some r => decide (r = "Made")
  | none => false

/-- assign_zone of src/process_shots.py: normalize the coordinates into the
unit square with clamping, scale by the grid dimensions, truncate with the
int builtin, and clamp the indices into range. Returns the pair row, col. -/
def assign_zone (x y : ℚ) (court_width court_length : ℚ) (grid_rows grid_cols : ℤ) :
    ℤ × ℤ :=
  let x_norm := max 0 (min 1 (x / court_width))
  let y_norm := max 0 (min 1 (y / court_length))
  let col := pyInt (x_norm * grid_cols)
  let row := pyInt (y_norm * grid_rows)
  (min row (grid_rows - 1), min col (grid_cols - 1))

/-- The Points column calculate_zone_stats adds to the shot table, written
as the same sequence of masked assignments as the source: initialize to 0,
set made 3PT shots to 3, set other made shots to 2, set non-made shots
to 0. -/
def shot_points (s : Shot) : ℚ :=
  let p0 : ℚ := 0
  let p1 := if contains3PT s.shotType ∧ isMade s then 3 else p0
  let p2 := if ¬ contains3PT s.shotType ∧ isMade s then 2 else p1
  if ¬ isMade s then 0 else p2

/-- The rows of the shot table assigned to the zone at the given row and
column indices. -/
def zone_shots (df : List Shot) (court_width court_length : ℚ)
    (grid_rows grid_cols : ℤ) (r c : ℤ) : List Shot :=
  df.filter (fun s =>
    decide (assign_zone s.x s.y court_width court_length grid_rows grid_cols = (r, c)))

/-- One row of the zone statistics table. -/
structure ZoneStat where
  row : ℤ
  col : ℤ
  totalShots : ℕ
  madeShots : ℕ
  missedShots : ℕ
  totalPoints : ℚ
  pointsPerShot : ℚ
  pointsPerPossession : ℚ
  fieldGoalPercentage : ℚ

/-- The record calculate_zone_stats appends for one zone: the aggregated
statistics when the zone holds at least one shot, the all-zero record
otherwise. -/
def zone_stat_for (df : List Shot) (court_width court_length : ℚ)
    (grid_rows grid_cols : ℤ) (r c : ℤ) : ZoneStat :=
  let zs := zone_shots df court_width court_length grid_rows grid_cols r c
  if 0 < zs.length then
    let total_shots := zs.length
    let made_shots := (zs.filter (fun s => isMade s)).length
    let total_points := (zs.map shot_points).sum
    let pps := if 0 < total_shots then total_points / (total_shots : ℚ) else 0
    let ppp := if 0 < total_shots then total_points / (total_shots : ℚ) else 0
    { row := r
      col := c
      totalShots := total_shots
      madeShots := made_shots
      missedShots := total_shots - made_shots
      totalPoints := total_points
      pointsPerShot := pyRound pps 2
      pointsPerPossession := pyRound ppp 2
      fieldGoalPercentage :=
        if 0 < total_shots then pyRound ((made_shots : ℚ) / (total_shots : ℚ) * 100) 1 else 0 }
  else
    { row := r
      col := c
      totalShots := 0
      madeShots := 0
      missedShots := 0
      totalPoints := 0
      pointsPerShot := 0
      pointsPerPossession := 0
      fieldGoalPercentage := 0 }

/-- calculate_zone_stats of src/process_shots.py: iterate the full grid in
row-major order and append one record per zone. -/
def calculate_zone_stats (df : List Shot) (court_width court_length : ℚ)
    (grid_rows grid_cols : ℕ) : List ZoneStat :=
  (List.range grid_rows).flatMap (fun (r : ℕ) =>
    (List.range grid_cols).map (fun (c : ℕ) =>
      zone_stat_for df court_width court_length (grid_rows : ℤ) (grid_cols : ℤ)
        (↑r : ℤ) (↑c : ℤ)))

/-! ## Predicates and example inputs used by the specification statements -/

/-- A minutes string the source parser accepts: not the em-dash sentinel,
splitting on the colon into exactly two fields, both accepted by the int
builtin. -/
def parseableMMSS (s : String) : Prop :=
  s ≠ "—" ∧ ∃ a b, splitOnChar ':' s.toList = [a, b] ∧
    (pyParseInt a).isSome ∧ (pyParseInt b).isSome

/-- The team totals of the worked example of the specification: FGA 60,
ORB 10, TO 12, FTA 15; every other column zero. -/
def exampleTeamTotals : TeamStats :=
  { points := 0, fgAttempts := 60, offensiveRebounds := 10, defensiveRebounds := 0,
    rebounds := 0, turnovers := 12, ftAtt := 15, astToRatio := 0, turnoverPct := 0,
    pointsPerPossession := 0, effectiveFieldGoalPct := none, trueShootingPct := none,
    twoFGMade := 0, twoFGAttempts := 0, twoFGPct := 0, threeFGMade := 0,
    threeFGAttempts := 0, threeFGAtt := 0, threeFGPct := 0,
    offensiveReboundingPct := 0, defensiveReboundingPct := 0 }

/-- A team box score row with every column zero, giving an estimated
possession count of zero. -/
def zeroTeamStats : TeamStats :=
  { points := 0, fgAttempts := 0, offensiveRebounds := 0, defensiveRebounds := 0,
    rebounds := 0, turnovers := 0, ftAtt := 0, astToRatio := 0, turnoverPct := 0,
    pointsPerPossession := 0, effectiveFieldGoalPct := none, trueShootingPct := none,
    twoFGMade := 0, twoFGAttempts := 0, twoFGPct := 0, threeFGMade := 0,
    threeFGAttempts := 0, threeFGAtt := 0, threeFGPct := 0,
    offensiveReboundingPct := 0, defensiveReboundingPct := 0 }

/-- A game whose two teams both have zero estimated possessions. -/
def zeroGame : GameData :=
  { ourStats := zeroTeamStats, oppStats := zeroTeamStats, ourPlayers := [] }

/-- A game in which the stored Points Per Possession column disagrees with
points divided by the estimated possessions: 100 points over 50 estimated
possessions gives ratio 2, while the stored column holds 1. -/
def ppLostGame : GameData :=
  { ourStats :=
      { points := 100, fgAttempts := 50, offensiveRebounds := 10, defensiveRebounds := 0,
        rebounds := 0, turnovers := 10, ftAtt := 0, astToRatio := 0, turnoverPct := 0,
        pointsPerPossession := 1, effectiveFieldGoalPct := none, trueShootingPct := none,
        twoFGMade := 0, twoFGAttempts := 0, twoFGPct := 0, threeFGMade := 0,
        threeFGAttempts := 0, threeFGAtt := 0, threeFGPct := 0,
        offensiveReboundingPct := 0, defensiveReboundingPct := 0 }
    oppStats := zeroTeamStats
    ourPlayers := [] }

/-- A one-row shot table holding a made three-point attempt at the origin. -/
def exampleShotTable : List Shot :=
  [{ x := 0, y := 0, shotType := some "3PT Jump Shot", result := some "Made" }]

/-! ## General lemmas about the embedded primitives -/

theorem roundHalfEven_zero : roundHalfEven 0 = 0 := by
  simp [roundHalfEven]

theorem pyRound_zero (n : ℕ) : pyRound 0 n = 0 := by
  simp [pyRound, roundHalfEven_zero]

theorem pyInt_nonneg {q : ℚ} (h : 0 ≤ q) : 0 ≤ pyInt q := by
  rw [pyInt, if_pos h]
  exact Int.floor_nonneg.mpr h

/-! ## Lemmas about the stable descending sort -/

theorem pySortDesc_perm {α : Type} (key : α → ℚ) (l : List α) :
    (pySortDesc key l).Perm l :=
  List.perm_insertionSort _ l

theorem pySortDesc_sorted {α : Type} (key : α → ℚ) (l : List α) :
    (pySortDesc key l).Sorted (fun a b => key b ≤ key a) := by
  haveI : IsTotal α (fun a b => key b ≤ key a) := ⟨fun a b => le_total (key b) (key a)⟩
  haveI : IsTrans α (fun a b => key b ≤ key a) :=
    ⟨fun _ _ _ hab hbc => le_trans hbc hab⟩
  exact List.sorted_insertionSort _ l

theorem filter_key_orderedInsert {α : Type} (key : α → ℚ) (k : ℚ) (x : α) (l : List α) :
    (List.orderedInsert (fun a b => key b ≤ key a) x l).filter (fun a => decide (key a = k)) =
      if key x = k then x :: l.filter (fun a => decide (key a = k))
      else l.filter (fun a => decide (key a = k)) := by
  induction l with
  | nil =>
    simp only [List.orderedInsert, List.filter]
    by_cases h : key x = k <;> simp [h]
  | cons b bl ih =>
    simp only [List.orderedInsert]
    by_cases hbx : key b ≤ key x
    · rw [if_pos hbx]
      by_cases h : key x = k <;> simp [List.filter_cons, h]
    · rw [if_neg hbx]
      have hlt : key x < key b := lt_of_not_le hbx
      by_cases h : key x = k
      · have hbk : ¬ key b = k := by
          intro hk
          exact absurd (hk ▸ h ▸ hlt) (lt_irrefl _)
        simp [List.filter_cons, hbk, ih, h]
      · simp [List.filter_cons, ih, h]

theorem pySortDesc_stable {α : Type} (key : α → ℚ) (k : ℚ) (l : List α) :
    (pySortDesc key l).filter (fun a => decide (key a = k)) =
      l.filter (fun a => decide (key a = k)) := by
  induction l with
  | nil => rfl
  | cons x xs ih =>
    simp only [pySortDesc] at ih
    show (List.orderedInsert _ x (List.insertionSort _ xs)).filter _ = _
    rw [filter_key_orderedInsert]
    by_cases h : key x = k <;> simp [List.filter_cons, h, ih]

theorem length_range_flatMap_map {β : Type} (gr gc : ℕ) (f : ℕ → ℕ → β) :
    ((List.range gr).flatMap (fun r => (List.range gc).map (f r))).length = gr * gc := by
  rw [List.length_flatMap]
  simp only [Function.comp_def]
  have h2 : List.map (fun a => ((List.range gc).map (f a)).length) (List.range gr) =
      List.replicate gr gc := by
    rw [show (fun a => ((List.range gc).map (f a)).length) = (fun _ : ℕ => gc) from
      funext (fun a => by rw [List.length_map, List.length_range])]
    rw [List.map_const', List.length_range]
  rw [h2, List.sum_replicate, smul_eq_mul]

/-! ## Lemmas about the zone records -/

theorem zone_stat_for_row (df : List Shot) (cw cl : ℚ) (gr gc r c : ℤ) :
    (zone_stat_for df cw cl gr gc r c).row = r := by
  simp only [zone_stat_for]
  split <;> rfl

theorem zone_stat_for_col (df : List Shot) (cw cl : ℚ) (gr gc r c : ℤ) :
    (zone_stat_for df cw cl gr gc r c).col = c := by
  simp only [zone_stat_for]
  split <;> rfl

/-! ## Claim theorems -/

/-- C1: for every team-totals record, the estimated possession count equals
FGA - ORB + TO + 0.44 * FTA; in particular, a team with FGA 60, ORB 10,
TO 12, FTA 15 has possessions 68.6. -/
theorem possessions_formula :
    (∀ ts : TeamStats, calculate_possessions ts =
        ts.fgAttempts - ts.offensiveRebounds + ts.turnovers + (44 / 100) * ts.ftAtt)
    ∧ calculate_possessions exampleTeamTotals = 686 / 10 := by
  refine ⟨fun ts => rfl, ?_⟩
  norm_num [calculate_possessions, exampleTeamTotals]

/-- C2: for a team whose estimated possession count is zero or negative, the
points-per-possession field of calculate_efficiency_metrics and the turnover
rate of analyze_turnovers are both reported as 0; the embedding is total, so
no division error or NaN can arise. -/
theorem zero_possessions_zero_metrics (g : GameData) :
    (our_possessions g ≤ 0 →
      (calculate_efficiency_metrics g).ourTeam.ppp = 0 ∧
      (analyze_turnovers g).ourToRate = 0)
    ∧ (opponent_possessions g ≤ 0 →
      (calculate_efficiency_metrics g).opponent.ppp = 0 ∧
      (analyze_turnovers g).oppToRate = 0) := by
  constructor
  · intro h
    constructor
    · show pyRound (if 0 < our_possessions g then g.ourStats.points / our_possessions g else 0) 3 = 0
      rw [if_neg (not_lt.mpr h), pyRound_zero]
    · show pyRound
        (if 0 < our_possessions g then g.ourStats.turnovers / our_possessions g * 100 else 0) 2 = 0
      rw [if_neg (not_lt.mpr h), pyRound_zero]
  · intro h
    constructor
    · show pyRound
        (if 0 < opponent_possessions g then g.oppStats.points / opponent_possessions g else 0) 3 = 0
      rw [if_neg (not_lt.mpr h), pyRound_zero]
    · show pyRound
        (if 0 < opponent_possessions g then g.oppStats.turnovers / opponent_possessions g * 100 else 0) 2 = 0
      rw [if_neg (not_lt.mpr h), pyRound_zero]

theorem zero_possessions_zero_metrics_witness :
    our_possessions zeroGame ≤ 0 ∧
    (calculate_efficiency_metrics zeroGame).ourTeam.ppp = 0 ∧
    (analyze_turnovers zeroGame).ourToRate = 0 := by
  have hle : our_possessions zeroGame ≤ 0 := by
    simp [our_possessions, calculate_possessions, zeroGame, zeroTeamStats]
  exact ⟨hle, ((zero_possessions_zero_metrics zeroGame).1 hle).1,
    ((zero_possessions_zero_metrics zeroGame).1 hle).2⟩

/-- C3: zone assignment is total: for every coordinate pair, out-of-bounds
values included, and every positive court and grid dimension, assign_zone
returns a row index in 0..grid_rows-1 and a column index in
0..grid_cols-1. -/
theorem assign_zone_within_grid (x y cw cl : ℚ) (gr gc : ℤ)
    (_hcw : 0 < cw) (_hcl : 0 < cl) (hgr : 0 < gr) (hgc : 0 < gc) :
    0 ≤ (assign_zone x y cw cl gr gc).1 ∧ (assign_zone x y cw cl gr gc).1 ≤ gr - 1 ∧
    0 ≤ (assign_zone x y cw cl gr gc).2 ∧ (assign_zone x y cw cl gr gc).2 ≤ gc - 1 := by
  have hx : (0 : ℚ) ≤ max 0 (min 1 (x / cw)) := le_max_left 0 _
  have hy : (0 : ℚ) ≤ max 0 (min 1 (y / cl)) := le_max_left 0 _
  have hrow : 0 ≤ pyInt (max 0 (min 1 (y / cl)) * (gr : ℚ)) :=
    pyInt_nonneg (mul_nonneg hy (by exact_mod_cast hgr.le))
  have hcol : 0 ≤ pyInt (max 0 (min 1 (x / cw)) * (gc : ℚ)) :=
    pyInt_nonneg (mul_nonneg hx (by exact_mod_cast hgc.le))
  refine ⟨?_, ?_, ?_, ?_⟩
  · exact le_min hrow (by omega)
  · exact min_le_right _ _
  · exact le_min hcol (by omega)
  · exact min_le_right _ _

theorem assign_zone_within_grid_witness :
    (0 : ℚ) < 94 ∧ (0 : ℚ) < 50 ∧ (0 : ℤ) < 5 ∧
    (0 ≤ (assign_zone (-10) 200 94 50 5 5).1 ∧ (assign_zone (-10) 200 94 50 5 5).1 ≤ 5 - 1 ∧
     0 ≤ (assign_zone (-10) 200 94 50 5 5).2 ∧ (assign_zone (-10) 200 94 50 5 5).2 ≤ 5 - 1) :=
  ⟨by norm_num, by norm_num, by decide,
   assign_zone_within_grid (-10) 200 94 50 5 5 (by norm_num) (by norm_num)
     (by decide) (by decide)⟩

/-- C4: for every input shot table, the empty table included,
calculate_zone_stats returns exactly grid_rows * grid_cols records, one per
zone in row-major order, and every zone to which no shot was assigned
reports 0 for all of its fields. -/
theorem zone_stats_dense (df : List Shot) (cw cl : ℚ) (gr gc : ℕ) :
    (calculate_zone_stats df cw cl gr gc).length = gr * gc
    ∧ (calculate_zone_stats df cw cl gr gc).map (fun z => (z.row, z.col)) =
        (List.range gr).flatMap (fun (r : ℕ) =>
          (List.range gc).map (fun (c : ℕ) => ((↑r : ℤ), (↑c : ℤ))))
    ∧ ∀ z ∈ calculate_zone_stats df cw cl gr gc,
        zone_shots df cw cl (gr : ℤ) (gc : ℤ) z.row z.col = [] →
        z.totalShots = 0 ∧ z.madeShots = 0 ∧ z.missedShots = 0 ∧ z.totalPoints = 0 ∧
        z.pointsPerShot = 0 ∧ z.pointsPerPossession = 0 ∧ z.fieldGoalPercentage = 0 := by
  refine ⟨?_, ?_, ?_⟩
  · show ((List.range gr).flatMap (fun (r : ℕ) => (List.range gc).map (fun (c : ℕ) =>
        zone_stat_for df cw cl (gr : ℤ) (gc : ℤ) (↑r : ℤ) (↑c : ℤ)))).length = gr * gc
    exact length_range_flatMap_map gr gc _
  · simp [calculate_zone_stats, List.map_flatMap, List.map_map, Function.comp_def,
      zone_stat_for_row, zone_stat_for_col]
  · intro z hz hempty
    simp only [calculate_zone_stats, List.mem_flatMap, List.mem_map, List.mem_range] at hz
    obtain ⟨r, _, c, _, rfl⟩ := hz
    rw [zone_stat_for_row, zone_stat_for_col] at hempty
    simp [zone_stat_for, hempty]

theorem zone_stats_dense_witness :
    (calculate_zone_stats [] (94 : ℚ) 50 1 1).length = 1 * 1 ∧
    (zone_stat_for [] (94 : ℚ) 50 1 1 0 0).totalShots = 0 ∧
    (zone_stat_for [] (94 : ℚ) 50 1 1 0 0).totalPoints = 0 := by
  have hmem : zone_stat_for [] (94 : ℚ) 50 1 1 0 0 ∈ calculate_zone_stats [] (94 : ℚ) 50 1 1 := by
    have h : calculate_zone_stats [] (94 : ℚ) 50 1 1 = [zone_stat_for [] (94 : ℚ) 50 1 1 0 0] := rfl
    rw [h]
    exact List.mem_singleton.mpr rfl
  have hz := (zone_stats_dense [] (94 : ℚ) 50 1 1).2.2 _ hmem rfl
  exact ⟨(zone_stats_dense [] (94 : ℚ) 50 1 1).1, hz.1, hz.2.2.2.1⟩

/-- C5: the Points value of a shot event is 3 when the result is Made and
the shot type contains 3PT, 2 when the result is Made and the shot type does
not contain 3PT, a missing shot type included, and 0 for any other result;
the total points of a zone are the sum of these values over the shots
assigned to it. -/
theorem shot_points_value :
    (∀ s : Shot, isMade s = true → contains3PT s.shotType = true → shot_points s = 3)
    ∧ (∀ s : Shot, isMade s = true → contains3PT s.shotType = false → shot_points s = 2)
    ∧ (∀ s : Shot, s.shotType = none → contains3PT s.shotType = false)
    ∧ (∀ s : Shot, isMade s = false → shot_points s = 0)
    ∧ (∀ s : Shot, isMade s = true ↔ s.result = some "Made")
    ∧ ∀ (df : List Shot) (cw cl : ℚ) (gr gc r c : ℤ),
        (zone_stat_for df cw cl gr gc r c).totalPoints =
          ((zone_shots df cw cl gr gc r c).map shot_points).sum := by
  refine ⟨?_, ?_, ?_, ?_, ?_, ?_⟩
  · intro s h1 h2
    simp [shot_points, h1, h2]
  · intro s h1 h2
    simp [shot_points, h1, h2]
  · intro s h
    simp [contains3PT, h]
  · intro s h
    simp [shot_points, h]
  · intro s
    cases hr : s.result with
    | none => simp [isMade, hr]
    | some r => simp [isMade, hr]
  · intro df cw cl gr gc r c
    simp only [zone_stat_for]
    split
    · rfl
    · next h =>
      have hnil : zone_shots df cw cl gr gc r c = [] :=
        List.length_eq_zero.mp (Nat.eq_zero_of_not_pos h)
      simp [hnil]

theorem shot_points_value_witness :
    isMade { x := 0, y := 0, shotType := some "3PT Jump Shot", result := some "Made" } = true ∧
    contains3PT (some "3PT Jump Shot") = true ∧
    shot_points { x := 0, y := 0, shotType := some "3PT Jump Shot", result := some "Made" } = 3 :=
  ⟨by decide, by decide,
   shot_points_value.1 { x := 0, y := 0, shotType := some "3PT Jump Shot", result := some "Made" }
     (by decide) (by decide)⟩

/-- C8: in every record of the zone statistics output, the
points-per-possession field equals the points-per-shot field, for every
input shot table and grid configuration. -/
theorem zone_ppp_eq_pps (df : List Shot) (cw cl : ℚ) (gr gc : ℕ) (z : ZoneStat)
    (hz : z ∈ calculate_zone_stats df cw cl gr gc) :
    z.pointsPerPossession = z.pointsPerShot := by
  simp only [calculate_zone_stats, List.mem_flatMap, List.mem_map, List.mem_range] at hz
  obtain ⟨r, _, c, _, rfl⟩ := hz
  simp only [zone_stat_for]
  split
  · rfl
  · rfl

theorem zone_ppp_eq_pps_witness :
    (zone_stat_for exampleShotTable (94 : ℚ) 50 1 1 0 0).pointsPerPossession =
      (zone_stat_for exampleShotTable (94 : ℚ) 50 1 1 0 0).pointsPerShot := by
  have hmem : zone_stat_for exampleShotTable (94 : ℚ) 50 1 1 0 0 ∈
      calculate_zone_stats exampleShotTable (94 : ℚ) 50 1 1 := by
    have h : calculate_zone_stats exampleShotTable (94 : ℚ) 50 1 1 =
        [zone_stat_for exampleShotTable (94 : ℚ) 50 1 1 0 0] := rfl
    rw [h]
    exact List.mem_singleton.mpr rfl
  exact zone_ppp_eq_pps exampleShotTable (94 : ℚ) 50 1 1 _ hmem

/-- C6: a clock string MM:SS with integer parts parses to MM + SS/60
decimal minutes, 24:30 giving 24.5; a missing, sentinel, or otherwise
unparseable string parses to 0; and a per-36-minute rate at zero parsed
minutes is 0 rather than an error. -/
theorem minutes_normalization :
    parse_minutes (some "24:30") = 49 / 2
    ∧ parse_minutes none = 0
    ∧ parse_minutes (some "—") = 0
    ∧ (∀ s : String, ¬ parseableMMSS s → parse_minutes (some s) = 0)
    ∧ (∀ (s : String) (a b : List Char) (m sec : ℤ), s ≠ "—" →
        splitOnChar ':' s.toList = [a, b] → pyParseInt a = some m → pyParseInt b = some sec →
        parse_minutes (some s) = (m : ℚ) + (sec : ℚ) / 60)
    ∧ ∀ v : ℚ, per36 v 0 = 0 := by
  refine ⟨?_, rfl, rfl, ?_, ?_, ?_⟩
  · have h : parse_minutes (some "24:30") = ((24 : ℤ) : ℚ) + ((30 : ℤ) : ℚ) / 60 := rfl
    rw [h]
    norm_num
  · intro s hns
    simp only [parse_minutes]
    split_ifs with h1
    · rfl
    · split
      · next a b heq =>
        split
        · next m sec hm hsec =>
          exact absurd ⟨h1, a, b, heq, by simp [hm], by simp [hsec]⟩ hns
        · rfl
      · rfl
  · intro s a b m sec hs hsp hpa hpb
    simp only [parse_minutes]
    rw [if_neg hs, hsp]
    show (match pyParseInt a, pyParseInt b with
      | some m, some sec => (m : ℚ) + (sec : ℚ) / 60
      | _, _ => 0) = (m : ℚ) + (sec : ℚ) / 60
    rw [hpa, hpb]
  · intro v
    simp [per36]

theorem minutes_normalization_witness :
    parse_minutes (some "10:45") = ((10 : ℤ) : ℚ) + ((45 : ℤ) : ℚ) / 60 :=
  minutes_normalization.2.2.2.2.1 "10:45" ("10".toList) ("45".toList) 10 45
    (by decide) (by decide) (by decide) (by decide)

/-- C7: the ranked turnover list built by analyze_turnovers holds exactly
the players whose turnover count is present and strictly positive, in
descending order of turnover count, with equal counts left in input order
by the stable sort. -/
theorem ranked_turnovers_spec (g : GameData) :
    (∀ p : PlayerRow, qualifiesTO p = true ↔ ∃ t, p.basicTO = some t ∧ 0 < t)
    ∧ (ranked_turnover_players g).Perm ((g.ourPlayers.filter qualifiesTO).map mkTOEntry)
    ∧ (ranked_turnover_players g).Sorted (fun a b => b.turnovers ≤ a.turnovers)
    ∧ ∀ k : ℚ, (ranked_turnover_players g).filter (fun e => decide (e.turnovers = k)) =
        ((g.ourPlayers.filter qualifiesTO).map mkTOEntry).filter
          (fun e => decide (e.turnovers = k)) := by
  refine ⟨?_, ?_, ?_, ?_⟩
  · intro p
    cases h : p.basicTO with
    | none => simp [qualifiesTO, h]
    | some t => simp [qualifiesTO, h]
  · exact pySortDesc_perm _ _
  · exact pySortDesc_sorted (fun e : TOEntry => e.turnovers) _
  · intro k
    exact pySortDesc_stable (fun e : TOEntry => e.turnovers) k _

/-- C9, counterexample: there is a game on which the potential points lost
reported by analyze_turnovers differ from the turnover count times points
divided by the estimated possessions, because the source multiplies by the
stored Points Per Possession column instead. -/
theorem potential_points_lost_counterexample :
    (analyze_turnovers ppLostGame).potentialPointsLost ≠
      ppLostGame.ourStats.turnovers *
        (ppLostGame.ourStats.points / our_possessions ppLostGame) := by
  have h1 : (analyze_turnovers ppLostGame).potentialPointsLost =
      pyRound ((10 : ℚ) * 1) 2 := rfl
  have h2 : our_possessions ppLostGame = 50 := by
    norm_num [our_possessions, calculate_possessions, ppLostGame]
  rw [h1, h2]
  norm_num [pyRound, roundHalfEven, ppLostGame]

/-- C9, amended: analyze_turnovers reports potential points lost equal to
the team turnover count multiplied by the Points Per Possession column
stored in the team box score row, rounded to two decimal digits. -/
theorem potential_points_lost_amended (g : GameData) :
    (analyze_turnovers g).potentialPointsLost =
      pyRound (g.ourStats.turnovers * g.ourStats.pointsPerPossession) 2 := rfl

/-- C10: each of the three player rankings returned by the analyzers is the
sorted list truncated to its first five entries, so each holds at most five
players. -/
theorem top_lists_at_most_five (g : GameData) :
    (analyze_turnovers g).topTurnoverPlayers.length ≤ 5
    ∧ (analyze_rebounding g).topRebounders.length ≤ 5
    ∧ (optimize_shot_selection g).topShooters.length ≤ 5
    ∧ (analyze_turnovers g).topTurnoverPlayers = (ranked_turnover_players g).take 5
    ∧ (analyze_rebounding g).topRebounders = (ranked_rebounders g).take 5
    ∧ (optimize_shot_selection g).topShooters = (ranked_shooters g).take 5 := by
  refine ⟨?_, ?_, ?_, rfl, rfl, rfl⟩
  · show ((ranked_turnover_players g).take 5).length ≤ 5
    exact List.length_take_le 5 _
  · show ((ranked_rebounders g).take 5).length ≤ 5
    exact List.length_take_le 5 _
  · show ((ranked_shooters g).take 5).length ≤ 5
    exact List.length_take_le 5 _

end HarkerBBALL
